import Mathlib

/-!
Verification of the datahub-actions CLI entrypoint
(src/datahub-actions/src/datahub_actions/entrypoints.py).

The file models the bootstrap behaviour of the entrypoint: severity-routing
of log records across the three sinks attached to the dedicated
"datahub_actions" logger, the debug severity policy, the optional metrics
listener, the invocation context, and the exception-to-exit-code
translation performed by main.
-/

namespace DatahubActions

/-! Severity constants of the Python logging module. -/

namespace logging

def DEBUG : Nat := 10

def INFO : Nat := 20

def WARNING : Nat := 30

def ERROR : Nat := 40

end logging

/-- Fixed on-disk location of the rotating log file (entrypoints.py line 34). -/
def LOGGING_FILE_LOCATION : String := "/tmp/datahub/logs/actions/actions.out"

/-- Line width used for help text and stack-trace wrapping (entrypoints.py line 37). -/
def MAX_CONTENT_WIDTH : Nat := 120

/-- Click option defaults of the top-level group. -/
def enable_monitoring_default : Bool := false

def monitoring_port_default : Nat := 8000

def debug_default : Bool := false

def detect_memory_leaks_default : Bool := false

/-- Embedding of the LogFilter class: lets through all records with
levelno at most the configured level. -/
structure LogFilter where
  level : Nat
  deriving DecidableEq, Repr

/-- Python: return record.levelno <= self.level -/
def LogFilter.filter (f : LogFilter) (levelno : Nat) : Bool :=
  levelno ≤ f.level

/-- The three stream destinations a handler can write to. -/
inductive SinkId where
  | stdoutSink
  | stderrSink
  | fileSink
  deriving DecidableEq, Repr

/-- A logging handler: its destination, its severity threshold and the
LogFilter instances attached to it. -/
structure Handler where
  sink : SinkId
  level : Nat
  filters : List LogFilter
  deriving DecidableEq, Repr

/-- A handler emits a record when the record level reaches the handler
threshold and every attached filter lets it through. -/
def handlerEmits (h : Handler) (levelno : Nat) : Bool :=
  decide (h.level ≤ levelno) && h.filters.all fun f => f.filter levelno

/-- Constructor arguments of the TimedRotatingFileHandler call
(entrypoints.py lines 113-115). -/
structure TimedRotatingFileCfg where
  filename : String
  when_arg : String
  interval : Nat
  backupCount : Nat
  deriving DecidableEq, Repr

/-- Ordered side effects of the group callback followed by click
dispatching the selected sub-command. -/
inductive BootEvent where
  | configure_logging
  | start_monitoring (port : Nat)
  | set_context
  | dispatch_subcommand
  deriving DecidableEq, Repr

/-- Sequence of side effects: logging setup happens first, the metrics
listener is started only under the flag, then the context is filled and
click dispatches the sub-command. -/
def bootEvents (enable_monitoring : Bool) (monitoring_port : Nat) : List BootEvent :=
  [BootEvent.configure_logging]
    ++ (if enable_monitoring then [BootEvent.start_monitoring monitoring_port] else [])
    ++ [BootEvent.set_context, BootEvent.dispatch_subcommand]

/-- State produced by the datahub_actions group callback: the ambient root
level, the dedicated logger level and propagation flag, the three attached
handlers, the rotation configuration of the file handler, the click
context object and the ordered event trace. -/
structure BootstrapState where
  rootLevel : Nat
  datahubLevel : Nat
  datahubPropagate : Bool
  info_handler : Handler
  error_handler : Handler
  file_handler : Handler
  fileRotation : TimedRotatingFileCfg
  ctx_obj : List (String × Bool)
  events : List BootEvent
  deriving DecidableEq, Repr

/-- The handlers attached to the dedicated logger, in attach order
(entrypoints.py lines 118-120). -/
def BootstrapState.handlers (st : BootstrapState) : List Handler :=
  [st.info_handler, st.error_handler, st.file_handler]

/-- Shallow embedding of the body of the datahub_actions group callback
(entrypoints.py lines 86-136).  env_DATAHUB_DEBUG models the value of
get_boolean_env_variable applied to DATAHUB_DEBUG with default False; the
Python or-expression short-circuits, so the variable is consulted only
when the debug flag is false, which the theorems state as independence of
the result from env_DATAHUB_DEBUG when debug is true. -/
def datahub_actions (enable_monitoring : Bool) (monitoring_port : Nat)
    (debug : Bool) (detect_memory_leaks : Bool) (env_DATAHUB_DEBUG : Bool) :
    BootstrapState :=
  let info_handler : Handler :=
    { sink := SinkId.stdoutSink, level := logging.INFO,
      filters := [{ level := logging.INFO }] }
  let error_handler : Handler :=
    { sink := SinkId.stderrSink, level := logging.WARNING, filters := [] }
  let file_handler : Handler :=
    { sink := SinkId.fileSink, level := logging.INFO, filters := [] }
  let rotation : TimedRotatingFileCfg :=
    { filename := LOGGING_FILE_LOCATION, when_arg := "midnight",
      interval := 1, backupCount := 10 }
  if debug || env_DATAHUB_DEBUG then
    { rootLevel := logging.INFO
      datahubLevel := logging.DEBUG
      datahubPropagate := false
      info_handler := { info_handler with level := logging.DEBUG }
      error_handler := error_handler
      file_handler := { file_handler with level := logging.DEBUG }
      fileRotation := rotation
      ctx_obj := [("detect_memory_leaks", detect_memory_leaks)]
      events := bootEvents enable_monitoring monitoring_port }
  else
    { rootLevel := logging.WARNING
      datahubLevel := logging.INFO
      datahubPropagate := false
      info_handler := info_handler
      error_handler := error_handler
      file_handler := file_handler
      fileRotation := rotation
      ctx_obj := [("detect_memory_leaks", detect_memory_leaks)]
      events := bootEvents enable_monitoring monitoring_port }

/-- A record logged through the dedicated logger reaches a handler when
the logger-level check at the call site passes and the handler emits it. -/
def recordEmits (st : BootstrapState) (h : Handler) (levelno : Nat) : Bool :=
  decide (st.datahubLevel ≤ levelno) && handlerEmits h levelno

/-- Whether a record at the given level, logged through the dedicated
logger, is written to the given sink. -/
def writes (st : BootstrapState) (s : SinkId) (levelno : Nat) : Bool :=
  st.handlers.any fun h => decide (h.sink = s) && recordEmits st h levelno

/-- Configuration of the ambient root logger, mutable by other code in the
process. -/
structure RootState where
  level : Nat
  handlers : List Handler

/-- Observed output of the dedicated logger for a record at the given
level: its own handlers, plus the root handlers when propagation is on. -/
def observedWrites (root : RootState) (st : BootstrapState) (s : SinkId)
    (levelno : Nat) : Bool :=
  writes st s levelno
    || (st.datahubPropagate
        && root.handlers.any fun h => decide (h.sink = s) && handlerEmits h levelno)

/-- Configuration passed to stackprinter.format by main
(entrypoints.py lines 151-158). -/
structure TraceRender where
  line_wrap : Nat
  truncate_vals : Nat
  suppress_click_frames : Bool
  show_vals : Bool
  deriving DecidableEq, Repr

/-- Messages logged by main after an unhandled exception. -/
inductive LogMessage where
  | stack_trace (r : TraceRender)
  | tool_version_and_location
  | runtime_version_executable_platform
  deriving DecidableEq, Repr

/-- An exception raised during dispatch: its membership in the two
exception classes the except clauses name, and its user-facing message. -/
structure RaisedError where
  is_abort : Bool
  is_click_exception : Bool
  message : String
  deriving DecidableEq, Repr

/-- Outcome of main: the process exit code, the message displayed through
the click error show method if any, and the records written through the
module logger as pairs of severity and message. -/
structure MainOutcome where
  exit_code : Nat
  shown_message : Option String
  log : List (Nat × LogMessage)
  deriving DecidableEq, Repr

/-- Shallow embedding of main (entrypoints.py lines 139-165): dispatch
either completes (none) or raises (some error); the except clauses are
tried in order — Abort, then ClickException, then any exception. -/
def main (dispatch : Option RaisedError) : MainOutcome :=
  match dispatch with
  | none => { exit_code := 0, shown_message := none, log := [] }
  | some e =>
    if e.is_abort then
      { exit_code := 1, shown_message := none, log := [] }
    else if e.is_click_exception then
      { exit_code := 1, shown_message := some e.message, log := [] }
    else
      { exit_code := 1, shown_message := none,
        log := [(logging.ERROR, LogMessage.stack_trace
                  { line_wrap := MAX_CONTENT_WIDTH,
                    truncate_vals := 10 * MAX_CONTENT_WIDTH,
                    suppress_click_frames := true,
                    show_vals := false }),
                (logging.INFO, LogMessage.tool_version_and_location),
                (logging.INFO, LogMessage.runtime_version_executable_platform)] }

/-! Theorems. -/

/-- C1: for every combination of the debug flag and the DATAHUB_DEBUG
environment toggle, the resulting thresholds match the severity policy
(debug enabled: ambient at informational, dedicated logger, informational
sink and file sink at debug; otherwise ambient at warning, dedicated
logger at informational), and the explicit flag takes precedence over the
environment variable: when the flag is true the result does not depend on
the environment toggle. -/
theorem severity_policy_table (em : Bool) (p : Nat) (debug dl env : Bool) :
    (datahub_actions em p debug dl env).rootLevel
        = (if debug || env then logging.INFO else logging.WARNING) ∧
    (datahub_actions em p debug dl env).datahubLevel
        = (if debug || env then logging.DEBUG else logging.INFO) ∧
    (datahub_actions em p debug dl env).info_handler.level
        = (if debug || env then logging.DEBUG else logging.INFO) ∧
    (datahub_actions em p debug dl env).file_handler.level
        = (if debug || env then logging.DEBUG else logging.INFO) ∧
    (datahub_actions em p debug dl env).error_handler.level = logging.WARNING ∧
    (∀ env₂ : Bool,
      datahub_actions em p true dl env₂ = datahub_actions em p true dl env) := by
  cases debug <;> cases env <;>
    simp [datahub_actions, logging.DEBUG, logging.INFO, logging.WARNING]

/-- C2: a record routed through the dedicated logger at informational
severity or below is never written to the standard-error sink, and a
record at warning severity or above is written to the standard-error
sink and the file sink but never to the standard-output sink. -/
theorem severity_routing (em : Bool) (p : Nat) (debug dl env : Bool) (lvl : Nat) :
    (lvl ≤ logging.INFO →
      writes (datahub_actions em p debug dl env) SinkId.stderrSink lvl = false) ∧
    (logging.WARNING ≤ lvl →
      writes (datahub_actions em p debug dl env) SinkId.stdoutSink lvl = false ∧
      writes (datahub_actions em p debug dl env) SinkId.stderrSink lvl = true ∧
      writes (datahub_actions em p debug dl env) SinkId.fileSink lvl = true) := by
  cases debug <;> cases env <;>
    simp [datahub_actions, writes, BootstrapState.handlers, recordEmits,
      handlerEmits, LogFilter.filter, logging.DEBUG, logging.INFO,
      logging.WARNING] <;>
    omega

/-- C2 witness: at a concrete configuration, an informational record does
not reach standard error, and a warning record reaches standard error and
the file but not standard output. -/
theorem severity_routing_witness :
    writes (datahub_actions false 8000 false false false) SinkId.stderrSink 20 = false ∧
    (writes (datahub_actions false 8000 false false false) SinkId.stdoutSink 30 = false ∧
     writes (datahub_actions false 8000 false false false) SinkId.stderrSink 30 = true ∧
     writes (datahub_actions false 8000 false false false) SinkId.fileSink 30 = true) :=
  ⟨(severity_routing false 8000 false false false 20).1 (by decide),
   (severity_routing false 8000 false false false 30).2 (by decide)⟩

/-- C3: the except clauses are tried in precedence order — abort first
(exit code 1, nothing shown, nothing logged), then a recognized click
exception (its own message shown, exit code 1, no stack trace), then any
other exception (exit code 1); normal completion exits with code 0. -/
theorem exception_translation_order (e : RaisedError) :
    (main none).exit_code = 0 ∧
    (main (some e)).exit_code = 1 ∧
    (e.is_abort = true →
      main (some e) = { exit_code := 1, shown_message := none, log := [] }) ∧
    (e.is_abort = false → e.is_click_exception = true →
      main (some e)
          = { exit_code := 1, shown_message := some e.message, log := [] }) := by
  cases h₁ : e.is_abort <;> cases h₂ : e.is_click_exception <;>
    simp [main, h₁, h₂]

/-- C3 witness: an error that is both an abort and a click exception is
translated by the abort clause, and a pure click exception shows its own
message. -/
theorem exception_translation_order_witness :
    main (some { is_abort := true, is_click_exception := true, message := "m" })
        = { exit_code := 1, shown_message := none, log := [] } ∧
    main (some { is_abort := false, is_click_exception := true, message := "m" })
        = { exit_code := 1, shown_message := some "m", log := [] } :=
  ⟨(exception_translation_order
      { is_abort := true, is_click_exception := true, message := "m" }).2.2.1 rfl,
   (exception_translation_order
      { is_abort := false, is_click_exception := true, message := "m" }).2.2.2 rfl rfl⟩

/-- C4: any other unhandled exception produces a stack trace rendered at
error level with line wrap 120, captured values truncated to 1200
characters, click-internal frames suppressed and no raw values shown,
followed by exactly two diagnostic lines at informational level — the
tool version and location, and the runtime version, executable and
platform — and the process exits with code 1. -/
theorem unhandled_exception_reporting (e : RaisedError) :
    e.is_abort = false → e.is_click_exception = false →
    main (some e)
        = { exit_code := 1, shown_message := none,
            log := [(logging.ERROR, LogMessage.stack_trace
                      { line_wrap := 120, truncate_vals := 1200,
                        suppress_click_frames := true, show_vals := false }),
                    (logging.INFO, LogMessage.tool_version_and_location),
                    (logging.INFO, LogMessage.runtime_version_executable_platform)] }
      ∧ MAX_CONTENT_WIDTH = 120 ∧ 10 * MAX_CONTENT_WIDTH = 1200 := by
  intro h₁ h₂
  simp [main, h₁, h₂, MAX_CONTENT_WIDTH, logging.ERROR, logging.INFO]

/-- C4 witness: concrete unhandled exception evaluated through main. -/
theorem unhandled_exception_reporting_witness :
    main (some { is_abort := false, is_click_exception := false, message := "boom" })
        = { exit_code := 1, shown_message := none,
            log := [(logging.ERROR, LogMessage.stack_trace
                      { line_wrap := 120, truncate_vals := 1200,
                        suppress_click_frames := true, show_vals := false }),
                    (logging.INFO, LogMessage.tool_version_and_location),
                    (logging.INFO, LogMessage.runtime_version_executable_platform)] }
      ∧ MAX_CONTENT_WIDTH = 120 ∧ 10 * MAX_CONTENT_WIDTH = 1200 :=
  unhandled_exception_reporting
    { is_abort := false, is_click_exception := false, message := "boom" } rfl rfl

/-- C5: the metrics listener is started exactly when the flag is set, on
the configured port (default 8000), after logging configuration and
before sub-command dispatch; with the flag off no listener is started. -/
theorem monitoring_listener (p : Nat) (debug dl env : Bool) :
    (datahub_actions true p debug dl env).events
        = [BootEvent.configure_logging, BootEvent.start_monitoring p,
           BootEvent.set_context, BootEvent.dispatch_subcommand] ∧
    (datahub_actions false p debug dl env).events
        = [BootEvent.configure_logging, BootEvent.set_context,
           BootEvent.dispatch_subcommand] ∧
    (∀ q : Nat, BootEvent.start_monitoring q
        ∉ (datahub_actions false p debug dl env).events) ∧
    monitoring_port_default = 8000 := by
  cases debug <;> cases env <;>
    simp [datahub_actions, bootEvents, monitoring_port_default]

/-- C6: exactly three sinks are attached to the dedicated logger, and the
file sink is a timed rotating handler rotating at midnight with at most
10 retained backups, writing to the fixed path, accepting
informational-and-above records, or debug-and-above in debug mode. -/
theorem file_sink_configuration (em : Bool) (p : Nat) (debug dl env : Bool) :
    (datahub_actions em p debug dl env).handlers.length = 3 ∧
    (datahub_actions em p debug dl env).fileRotation
        = { filename := "/tmp/datahub/logs/actions/actions.out",
            when_arg := "midnight", interval := 1, backupCount := 10 } ∧
    (datahub_actions em p debug dl env).file_handler.sink = SinkId.fileSink ∧
    (datahub_actions em p debug dl env).file_handler.level
        = (if debug || env then logging.DEBUG else logging.INFO) := by
  cases debug <;> cases env <;>
    simp [datahub_actions, BootstrapState.handlers, LOGGING_FILE_LOCATION]

/-- C7: propagation is disabled on the dedicated logger, so its observed
output is the same under any two configurations of the ambient root
logger: reconfiguring root handlers or levels after bootstrap changes
nothing. -/
theorem root_reconfiguration_independence (em : Bool) (p : Nat)
    (debug dl env : Bool) (root₁ root₂ : RootState) (s : SinkId) (lvl : Nat) :
    observedWrites root₁ (datahub_actions em p debug dl env) s lvl
        = observedWrites root₂ (datahub_actions em p debug dl env) s lvl ∧
    (datahub_actions em p debug dl env).datahubPropagate = false := by
  cases debug <;> cases env <;> simp [observedWrites, datahub_actions]

/-- C8: the invocation context passed to the dispatched sub-command holds
exactly one entry, the detect_memory_leaks flag, equal to the option value
whose click default is false. -/
theorem invocation_context_single_entry (em : Bool) (p : Nat)
    (debug dl env : Bool) :
    (datahub_actions em p debug dl env).ctx_obj = [("detect_memory_leaks", dl)] ∧
    (datahub_actions em p debug dl env).ctx_obj.length = 1 ∧
    (datahub_actions em p debug dl env).ctx_obj.lookup "detect_memory_leaks"
        = some dl ∧
    detect_memory_leaks_default = false := by
  cases debug <;> cases env <;>
    simp [datahub_actions, detect_memory_leaks_default, List.lookup]

/-- C9: enabling debug mode changes only the ambient root threshold, the
dedicated logger threshold, the standard-output sink threshold and the
file sink threshold; the standard-error sink is identical in both modes
with its threshold still at warning, and a record below warning severity
is never written to standard error even in debug mode. -/
theorem debug_frame_effect (em : Bool) (p : Nat) (dl env₁ : Bool) :
    (datahub_actions em p true dl env₁).error_handler
        = (datahub_actions em p false dl false).error_handler ∧
    (datahub_actions em p true dl env₁).error_handler.level = logging.WARNING ∧
    (datahub_actions em p true dl env₁).info_handler.sink
        = (datahub_actions em p false dl false).info_handler.sink ∧
    (datahub_actions em p true dl env₁).info_handler.filters
        = (datahub_actions em p false dl false).info_handler.filters ∧
    (datahub_actions em p true dl env₁).file_handler.sink
        = (datahub_actions em p false dl false).file_handler.sink ∧
    (datahub_actions em p true dl env₁).file_handler.filters
        = (datahub_actions em p false dl false).file_handler.filters ∧
    (datahub_actions em p true dl env₁).datahubPropagate
        = (datahub_actions em p false dl false).datahubPropagate ∧
    (datahub_actions em p true dl env₁).fileRotation
        = (datahub_actions em p false dl false).fileRotation ∧
    (datahub_actions em p true dl env₁).ctx_obj
        = (datahub_actions em p false dl false).ctx_obj ∧
    (datahub_actions em p true dl env₁).events
        = (datahub_actions em p false dl false).events ∧
    (∀ debug env lvl, lvl < logging.WARNING →
      writes (datahub_actions em p debug dl env) SinkId.stderrSink lvl = false) := by
  refine ⟨?_, ?_, ?_, ?_, ?_, ?_, ?_, ?_, ?_, ?_, ?_⟩ <;>
    first
      | (intro debug env lvl hlvl
         rw [show logging.WARNING = 30 from rfl] at hlvl
         cases debug <;> cases env <;>
           simp [datahub_actions, writes, BootstrapState.handlers, recordEmits,
             handlerEmits, LogFilter.filter, logging.DEBUG, logging.INFO,
             logging.WARNING] <;>
           omega)
      | (cases env₁ <;> simp [datahub_actions, logging.WARNING])

/-- C9 witness: at a concrete configuration in debug mode, an error-sink
comparison and the below-warning exclusion hold. -/
theorem debug_frame_effect_witness :
    (datahub_actions false 8000 true false true).error_handler
        = (datahub_actions false 8000 false false false).error_handler ∧
    writes (datahub_actions false 8000 true false true) SinkId.stderrSink 20
        = false :=
  ⟨(debug_frame_effect false 8000 false true).1,
   (debug_frame_effect false 8000 false true).2.2.2.2.2.2.2.2.2.2
      true true 20 (by decide)⟩

/-- C10: with debug mode off, the standard-output sink emits a record
exactly when its severity equals informational, and a record below
informational severity is written to no sink at all. -/
theorem nondebug_stdout_exact (em : Bool) (p : Nat) (dl : Bool) (lvl : Nat) :
    (writes (datahub_actions em p false dl false) SinkId.stdoutSink lvl = true
        ↔ lvl = logging.INFO) ∧
    (lvl < logging.INFO →
      ∀ s : SinkId, writes (datahub_actions em p false dl false) s lvl = false) := by
  constructor
  · simp [datahub_actions, writes, BootstrapState.handlers, recordEmits,
      handlerEmits, LogFilter.filter, logging.INFO, logging.WARNING]
    omega
  · intro hlvl s
    rw [show logging.INFO = 20 from rfl] at hlvl
    cases s <;>
      simp [datahub_actions, writes, BootstrapState.handlers, recordEmits,
        handlerEmits, LogFilter.filter, logging.DEBUG, logging.INFO,
        logging.WARNING] <;>
      omega

/-- C10 witness: with debug off, an informational record reaches standard
output and a debug record reaches no sink. -/
theorem nondebug_stdout_exact_witness :
    writes (datahub_actions false 8000 false false false) SinkId.stdoutSink 20
        = true ∧
    writes (datahub_actions false 8000 false false false) SinkId.fileSink 10
        = false :=
  ⟨(nondebug_stdout_exact false 8000 false 20).1.mpr rfl,
   (nondebug_stdout_exact false 8000 false 10).2 (by decide) SinkId.fileSink⟩

end DatahubActions
